import Mathlib

/-!
Shallow embedding of the Concerto ↔ Claude Code host middleware
(`agents/claude_code/claude_code_host.py`) and theorems checking the
specification's claims about it.

The embedding mirrors the Python source: JSON values are modelled by the
inductive `JVal`; `json.loads` / `json.dumps` become the executable
`json_loads` / `dumps*` functions below; the per-line session engine
(`ClaudeCodeHost.run` / `process_prompt`) becomes a pure function from the
input line and an explicit environment (agent outcome, mediator response
lines, wall-clock reading) to the list of emitted messages and the new host
state.
-/

set_option maxRecDepth 100000

namespace ClaudeHost

/-! ### Python-style string primitives -/

/-- Characters treated as whitespace by Python's `str.strip` (ASCII part). -/
def pyIsSpace (c : Char) : Bool :=
  c = ' ' || c = '\t' || c = '\n' || c = '\r' || c = '\x0b' || c = '\x0c'

def pyStripList (l : List Char) : List Char :=
  ((l.dropWhile pyIsSpace).reverse.dropWhile pyIsSpace).reverse

/-- Python `str.strip()`. -/
def pyStrip (s : String) : String := String.mk (pyStripList s.data)

/-- Python `str.lower()` (ASCII). -/
def pyLower (s : String) : String := String.mk (s.data.map Char.toLower)

/-- Python `sep.join(parts)`. -/
def pyJoin (sep : String) : List String → String
  | [] => ""
  | [x] => x
  | x :: y :: rest => x ++ sep ++ pyJoin sep (y :: rest)

/-- Python `l[-n:]` for `n ≥ 1`: the last `n` elements. -/
def pyTakeLast (n : Nat) (l : List α) : List α := l.drop (l.length - n)

def listStartsWith [BEq α] : List α → List α → Bool
  | _, [] => true
  | [], _ :: _ => false
  | a :: as, b :: bs => a == b && listStartsWith as bs

def listContainsSub [BEq α] (hay needle : List α) : Bool :=
  match hay with
  | [] => needle.isEmpty
  | _ :: t => listStartsWith hay needle || listContainsSub t needle

/-- Python `needle in hay` on strings. -/
def strContains (hay needle : String) : Bool := listContainsSub hay.data needle.data

def splitlinesAux : List Char → List Char → List String
  | [], acc => if acc.isEmpty then [] else [String.mk acc.reverse]
  | '\r' :: '\n' :: rest, acc => String.mk acc.reverse :: splitlinesAux rest []
  | '\r' :: rest, acc => String.mk acc.reverse :: splitlinesAux rest []
  | '\n' :: rest, acc => String.mk acc.reverse :: splitlinesAux rest []
  | '\x0b' :: rest, acc => String.mk acc.reverse :: splitlinesAux rest []
  | '\x0c' :: rest, acc => String.mk acc.reverse :: splitlinesAux rest []
  | c :: rest, acc => splitlinesAux rest (c :: acc)

/-- Python `str.splitlines()` (common line terminators). -/
def splitlines (s : String) : List String := splitlinesAux s.data []

/-! ### JSON values

Python numbers are kept as their source lexeme: none of the host's logic
inspects numeric magnitude, only truthiness and re-serialisation. -/

inductive JVal where
  | jnull : JVal
  | jbool : Bool → JVal
  | jnum : String → JVal
  | jstr : String → JVal
  | jarr : List JVal → JVal
  | jobj : List (String × JVal) → JVal

/-- Python `dict.get(k)` restricted to present keys (keys are unique because
`jinsert` replaces in place, as `json.loads` does for duplicates). -/
def jget (l : List (String × JVal)) (k : String) : Option JVal :=
  (l.find? (fun p => p.1 == k)).map (fun p => p.2)

/-- Python `dict.get(k)`: a JSON `null` value and an absent key are both
Python `None`. -/
def pyGet (l : List (String × JVal)) (k : String) : Option JVal :=
  match jget l k with
  | some .jnull => none
  | o => o

/-- Insertion into a parsed object, mirroring `dict` semantics on duplicate
keys: the first position is kept, the last value wins. -/
def jinsert (acc : List (String × JVal)) (k : String) (v : JVal) :
    List (String × JVal) :=
  if acc.any (fun p => p.1 == k) then
    acc.map (fun p => if p.1 == k then (k, v) else p)
  else acc ++ [(k, v)]

/-! ### `json.loads` -/

def jsonWs (c : Char) : Bool := c = ' ' || c = '\t' || c = '\n' || c = '\r'

def skipWs (cs : List Char) : List Char := cs.dropWhile jsonWs

def parseHexDigit (c : Char) : Option Nat :=
  if '0' ≤ c ∧ c ≤ '9' then some (c.toNat - '0'.toNat)
  else if 'a' ≤ c ∧ c ≤ 'f' then some (c.toNat - 'a'.toNat + 10)
  else if 'A' ≤ c ∧ c ≤ 'F' then some (c.toNat - 'A'.toNat + 10)
  else none

def parseHex4 (a b c d : Char) : Option Nat := do
  let x ← parseHexDigit a
  let y ← parseHexDigit b
  let z ← parseHexDigit c
  let w ← parseHexDigit d
  pure (((x * 16 + y) * 16 + z) * 16 + w)

/-- Decode a single-character JSON escape. -/
def escCode : Char → Option Char
  | '"' => some '"'
  | '\\' => some '\\'
  | '/' => some '/'
  | 'b' => some '\x08'
  | 'f' => some '\x0c'
  | 'n' => some '\n'
  | 'r' => some '\r'
  | 't' => some '\t'
  | _ => none

/-- Body of a JSON string after the opening quote: returns the decoded
characters and the input remaining after the closing quote.  Fuelled; every
step consumes at least one input character, so `length + 1` fuel suffices. -/
def parseStringBody : Nat → List Char → Option (List Char × List Char)
  | 0, _ => none
  | _ + 1, [] => none
  | _ + 1, '"' :: rest => some ([], rest)
  | fuel + 1, '\\' :: 'u' :: a :: b :: c :: d :: rest =>
    (match parseHex4 a b c d with
     | none => none
     | some n =>
       if 0xd800 ≤ n ∧ n < 0xdc00 then
         match rest with
         | '\\' :: 'u' :: a2 :: b2 :: c2 :: d2 :: rest2 =>
           (match parseHex4 a2 b2 c2 d2 with
            | some m =>
              if 0xdc00 ≤ m ∧ m < 0xe000 then
                (parseStringBody fuel rest2).map (fun pr =>
                  (Char.ofNat (0x10000 + (n - 0xd800) * 1024 + (m - 0xdc00)) :: pr.1, pr.2))
              else
                (parseStringBody fuel ('\\' :: 'u' :: a2 :: b2 :: c2 :: d2 :: rest2)).map
                  (fun pr => ('�' :: pr.1, pr.2))
            | none =>
              (parseStringBody fuel ('\\' :: 'u' :: a2 :: b2 :: c2 :: d2 :: rest2)).map
                (fun pr => ('�' :: pr.1, pr.2)))
         | other => (parseStringBody fuel other).map (fun pr => ('�' :: pr.1, pr.2))
       else if 0xdc00 ≤ n ∧ n < 0xe000 then
         (parseStringBody fuel rest).map (fun pr => ('�' :: pr.1, pr.2))
       else
         (parseStringBody fuel rest).map (fun pr => (Char.ofNat n :: pr.1, pr.2)))
  | fuel + 1, '\\' :: e :: rest =>
    (escCode e).bind (fun ch =>
      (parseStringBody fuel rest).map (fun pr => (ch :: pr.1, pr.2)))
  | fuel + 1, c :: rest =>
    if c.toNat < 0x20 then none
    else (parseStringBody fuel rest).map (fun pr => (c :: pr.1, pr.2))

/-- String body parse with sufficient fuel. -/
def parseStringTop (cs : List Char) : Option (List Char × List Char) :=
  parseStringBody (cs.length + 1) cs

/-- Lex a JSON numeric literal, keeping the lexeme. -/
def lexNumber (cs : List Char) : Option (String × List Char) :=
  let sp : List Char × List Char :=
    match cs with
    | '-' :: r => (['-'], r)
    | _ => ([], cs)
  let ds := sp.2.takeWhile Char.isDigit
  let cs2 := sp.2.drop ds.length
  if ds.isEmpty then none
  else
    let fr : List Char × List Char :=
      match cs2 with
      | '.' :: r =>
        let fs := r.takeWhile Char.isDigit
        if fs.isEmpty then ([], cs2) else ('.' :: fs, r.drop fs.length)
      | _ => ([], cs2)
    let exr : List Char × List Char :=
      match fr.2 with
      | e :: r =>
        if e = 'e' ∨ e = 'E' then
          match r with
          | s :: r2 =>
            if s = '+' ∨ s = '-' then
              let es := r2.takeWhile Char.isDigit
              if es.isEmpty then ([], fr.2) else (e :: s :: es, r2.drop es.length)
            else
              let es := r.takeWhile Char.isDigit
              if es.isEmpty then ([], fr.2) else (e :: es, r.drop es.length)
          | [] => ([], fr.2)
        else ([], fr.2)
      | [] => ([], fr.2)
    some (String.mk (sp.1 ++ ds ++ fr.1 ++ exr.1), exr.2)

mutual

def parseVal : Nat → List Char → Option (JVal × List Char)
  | 0, _ => none
  | fuel + 1, cs =>
    match skipWs cs with
    | 'n' :: 'u' :: 'l' :: 'l' :: r => some (.jnull, r)
    | 't' :: 'r' :: 'u' :: 'e' :: r => some (.jbool true, r)
    | 'f' :: 'a' :: 'l' :: 's' :: 'e' :: r => some (.jbool false, r)
    | '"' :: r => (parseStringTop r).map (fun pr => (.jstr (String.mk pr.1), pr.2))
    | '[' :: r =>
      (match skipWs r with
       | ']' :: r2 => some (.jarr [], r2)
       | _ => parseElems fuel r [])
    | '\x7b' :: r =>
      (match skipWs r with
       | '\x7d' :: r2 => some (.jobj [], r2)
       | _ => parseMembers fuel r [])
    | other => (lexNumber other).map (fun pr => (.jnum pr.1, pr.2))

def parseElems : Nat → List Char → List JVal → Option (JVal × List Char)
  | 0, _, _ => none
  | fuel + 1, cs, acc =>
    match parseVal fuel cs with
    | none => none
    | some (v, rest) =>
      match skipWs rest with
      | ',' :: r2 => parseElems fuel r2 (acc ++ [v])
      | ']' :: r2 => some (.jarr (acc ++ [v]), r2)
      | _ => none

def parseMembers : Nat → List Char → List (String × JVal) →
    Option (JVal × List Char)
  | 0, _, _ => none
  | fuel + 1, cs, acc =>
    match skipWs cs with
    | '"' :: r =>
      match parseStringTop r with
      | none => none
      | some (kcs, r1) =>
        match skipWs r1 with
        | ':' :: r2 =>
          (match parseVal fuel r2 with
           | none => none
           | some (v, r3) =>
             match skipWs r3 with
             | ',' :: r4 => parseMembers fuel r4 (jinsert acc (String.mk kcs) v)
             | '\x7d' :: r4 => some (.jobj (jinsert acc (String.mk kcs) v), r4)
             | _ => none)
        | _ => none
    | _ => none

end

/-- `json.loads`, returning `none` on a decode error
(`ClaudeCodeHost.try_parse_json`). -/
def json_loads (s : String) : Option JVal :=
  match parseVal (2 * s.data.length + 4) s.data with
  | some (v, rest) => if (skipWs rest).isEmpty then some v else none
  | none => none

def try_parse_json (s : String) : Option JVal := json_loads s

/-! ### `json.dumps` -/

mutual

/-- Executable size of a JSON value, used as recursion fuel. -/
def jsize : JVal → Nat
  | .jnull => 1
  | .jbool _ => 1
  | .jnum _ => 1
  | .jstr _ => 1
  | .jarr xs => 1 + jsizeList xs
  | .jobj l => 1 + jsizeMembers l

def jsizeList : List JVal → Nat
  | [] => 0
  | x :: r => 1 + jsize x + jsizeList r

def jsizeMembers : List (String × JVal) → Nat
  | [] => 0
  | p :: r => 1 + jsize p.2 + jsizeMembers r

end

def hexDigit (n : Nat) : Char :=
  if n < 10 then Char.ofNat ('0'.toNat + n) else Char.ofNat ('a'.toNat + (n - 10))

def hex4 (n : Nat) : String :=
  String.mk [hexDigit (n / 4096 % 16), hexDigit (n / 256 % 16),
             hexDigit (n / 16 % 16), hexDigit (n % 16)]

/-- Escape one character the way `json.dumps` (with the default
`ensure_ascii=True`) does. -/
def escChar (c : Char) : String :=
  if c = '"' then "\\\""
  else if c = '\\' then "\\\\"
  else if c = '\n' then "\\n"
  else if c = '\t' then "\\t"
  else if c = '\r' then "\\r"
  else if c = '\x08' then "\\b"
  else if c = '\x0c' then "\\f"
  else if c.toNat < 0x20 then "\\u" ++ hex4 c.toNat
  else if c.toNat < 0x7f then String.mk [c]
  else if c.toNat ≤ 0xffff then "\\u" ++ hex4 c.toNat
  else
    let n := c.toNat - 0x10000
    "\\u" ++ hex4 (0xd800 + n / 1024) ++ "\\u" ++ hex4 (0xdc00 + n % 1024)

def dumpString (s : String) : String :=
  "\"" ++ String.join (s.data.map escChar) ++ "\""

/-- `json.dumps` with item separator `isep` and key separator `ksep`
(fuelled recursion; `sizeOf v + 1` always exceeds the nesting depth). -/
def dumpsValF : Nat → String → String → JVal → String
  | 0, _, _, _ => ""
  | fuel + 1, isep, ksep, v =>
    match v with
    | .jnull => "null"
    | .jbool true => "true"
    | .jbool false => "false"
    | .jnum lex => lex
    | .jstr s => dumpString s
    | .jarr xs =>
      "[" ++ pyJoin isep (xs.map (dumpsValF fuel isep ksep)) ++ "]"
    | .jobj l =>
      "\x7b" ++
        pyJoin isep (l.map (fun p => dumpString p.1 ++ ksep ++ dumpsValF fuel isep ksep p.2)) ++
        "\x7d"

/-- `json.dumps(v, separators=(",", ":"))`. -/
def dumpsCompact (v : JVal) : String := dumpsValF (jsize v + 1) "," ":" v

/-- `json.dumps(v)` with the default separators. -/
def dumpsDefault (v : JVal) : String := dumpsValF (jsize v + 1) ", " ": " v

def insertSorted (p : String × JVal) : List (String × JVal) → List (String × JVal)
  | [] => [p]
  | q :: rest => if p.1 ≤ q.1 then p :: q :: rest else q :: insertSorted p rest

def sortByKey : List (String × JVal) → List (String × JVal)
  | [] => []
  | p :: rest => insertSorted p (sortByKey rest)

def padOf (level : Nat) : String := String.mk (List.replicate (2 * level) ' ')

/-- `json.dumps(v, indent=2, sort_keys=True)`. -/
def dumpsIndentF : Nat → Nat → JVal → String
  | 0, _, _ => ""
  | fuel + 1, level, v =>
    match v with
    | .jnull => "null"
    | .jbool true => "true"
    | .jbool false => "false"
    | .jnum lex => lex
    | .jstr s => dumpString s
    | .jarr [] => "[]"
    | .jarr xs =>
      "[\n" ++
        pyJoin ",\n" (xs.map (fun x => padOf (level + 1) ++ dumpsIndentF fuel (level + 1) x)) ++
        "\n" ++ padOf level ++ "]"
    | .jobj [] => "\x7b\x7d"
    | .jobj l =>
      "\x7b\n" ++
        pyJoin ",\n" ((sortByKey l).map (fun p =>
          padOf (level + 1) ++ dumpString p.1 ++ ": " ++ dumpsIndentF fuel (level + 1) p.2)) ++
        "\n" ++ padOf level ++ "\x7d"

def dumpsIndent2Sorted (v : JVal) : String := dumpsIndentF (jsize v + 1) 0 v

/-! ### Python truthiness and `str()` rendering of JSON-like values -/

/-- Truthiness of a numeric literal: a valid JSON number is zero iff its
mantissa (the part before any exponent) holds no digit `1`-`9`. -/
def numLexTruthy (lex : String) : Bool :=
  (lex.data.takeWhile (fun c => c ≠ 'e' ∧ c ≠ 'E')).any
    (fun c => '1' ≤ c ∧ c ≤ '9')

/-- Python truthiness of a value loaded from JSON. -/
def pyTruthy : JVal → Bool
  | .jnull => false
  | .jbool b => b
  | .jnum lex => numLexTruthy lex
  | .jstr s => s ≠ ""
  | .jarr xs => !xs.isEmpty
  | .jobj l => !l.isEmpty

def reprEscChar (c : Char) : String :=
  if c = '\\' then "\\\\"
  else if c = '\'' then "\\'"
  else if c = '\n' then "\\n"
  else if c = '\t' then "\\t"
  else if c = '\r' then "\\r"
  else String.mk [c]

/-- Python `repr` of a value loaded from JSON (fuelled like `dumpsValF`). -/
def pyReprF : Nat → JVal → String
  | 0, _ => ""
  | fuel + 1, v =>
    match v with
    | .jnull => "None"
    | .jbool true => "True"
    | .jbool false => "False"
    | .jnum lex => lex
    | .jstr s => "'" ++ String.join (s.data.map reprEscChar) ++ "'"
    | .jarr xs => "[" ++ pyJoin ", " (xs.map (pyReprF fuel)) ++ "]"
    | .jobj l =>
      "\x7b" ++
        pyJoin ", " (l.map (fun p =>
          "'" ++ String.join (p.1.data.map reprEscChar) ++ "': " ++ pyReprF fuel p.2)) ++
        "\x7d"

/-- Python `str()` of a value loaded from JSON, as used in f-strings. -/
def pyStr (v : JVal) : String :=
  match v with
  | .jstr s => s
  | _ => pyReprF (jsize v + 1) v

/-! ### Host data model -/

/-- `HostOptions` (the dataclass).  `verbose` is omitted: it only gates
stderr logging, which emits no protocol messages. -/
structure HostOptions where
  mode : String
  interactive : Bool
  mock : Bool
  claude_command : String
  claude_args : List String
  prompt_mode : String
  timeout_secs : Int
  response_timeout_secs : Int
  history_turns : Int
  max_partials : Int
  carry_history : Bool
deriving DecidableEq

/-- One stored history entry (`{"prompt": ..., "result": ...}`). -/
structure HEntry where
  prompt : String
  result : String
deriving DecidableEq

/-- An emitted NDJSON message (`ClaudeCodeHost.emit`), kept structured. -/
inductive Msg where
  | progress (session : Nat) (stage message : String)
  | chunk (session : Nat) (chunk : String)
  | result (session : Nat) (text : String) (elapsed_ms : Int) (command : String)
  | error (session : Option Nat) (message : String)
  | question (id question context : String) (options : List String)
  | approval (id description risk_level : String)
deriving DecidableEq

/-- Environment of one timeout-bound stdin wait: whether `select` reports the
input ready within a given budget, and the line `readline` would yield
(`none` models end-of-file, where `readline` returns `""`). -/
structure WaitEnv where
  ready : Int → Bool
  line : Option String

/-- What the external agent process would do: `notFound` models
`FileNotFoundError`; otherwise the run finishes with the given streams and
exit code iff its duration fits the allowed timeout. -/
inductive ProcBehavior where
  | notFound
  | completes (stdout stderr : String) (returncode : Int)

structure ProcEnv where
  finishesWithin : Int → Bool
  behavior : ProcBehavior

/-- Per-session environment: the two mediator waits, the agent process, and
the wall-clock reading that becomes `elapsed_ms`. -/
structure SessionEnv where
  questionWait : WaitEnv
  approvalWait : WaitEnv
  proc : ProcEnv
  elapsedMs : Int

/-- Mutable host state (`session_counter`, `history`). -/
structure HostState where
  session_counter : Nat
  history : List HEntry
deriving DecidableEq

def initState : HostState := ⟨0, []⟩

/-! ### Leaf host functions -/

/-- `ClaudeCodeHost.summarize`. -/
def summarize (text : String) (limit : Nat) : String :=
  let t := pyStrip (String.mk (text.data.map (fun c => if c = '\n' then ' ' else c)))
  if t.length ≤ limit then t else String.mk (t.data.take (limit - 3)) ++ "..."

/-- `ClaudeCodeHost.looks_high_risk`. -/
def looks_high_risk (prompt : String) : Bool :=
  let text := pyLower prompt
  ["rm -rf", "drop table", "delete", "destroy", "production", "migrate",
   "rollback", "truncate", "sudo"].any (fun kw => strContains text kw)

/-- `ClaudeCodeHost.compact_values` (the Python loop, accumulator style). -/
def compactAux : List String → List String → List String
  | compact, [] => compact
  | compact, v :: rest =>
    if v = "" then compactAux compact rest
    else if compact.getLast? = some v then compactAux compact rest
    else compactAux (compact ++ [v]) rest

def compact_values (values : List String) : List String := compactAux [] values

/-- `ClaudeCodeHost.record_history`. -/
def record_history (opts : HostOptions) (history : List HEntry)
    (prompt result : String) : List HEntry :=
  if !opts.carry_history then history
  else
    let h := history ++ [⟨summarize prompt 300, summarize result 300⟩]
    let max_entries : Int := max 1 (opts.history_turns * 2)
    if (h.length : Int) > max_entries then pyTakeLast max_entries.toNat h else h

/-- `ClaudeCodeHost.read_line_with_timeout`: a non-positive budget falls
through to a plain blocking `readline`; otherwise `select` guards the read. -/
def read_line_with_timeout (timeout_secs : Int) (w : WaitEnv) : Option String :=
  if timeout_secs ≤ 0 then w.line
  else if w.ready timeout_secs then w.line else none

/-- `ClaudeCodeHost.read_response`. -/
def read_response (response_timeout_secs : Int) (w : WaitEnv)
    (default : String) : String :=
  match read_line_with_timeout (max 0 response_timeout_secs) w with
  | none => default
  | some line =>
    match try_parse_json (pyStrip line) with
    | some (.jobj l) =>
      (match (pyGet l "value").orElse (fun _ => pyGet l "response") with
       | none => default
       | some (.jstr s) => pyStrip s
       | some v => dumpsCompact v)
    | _ =>
      let stripped := pyStrip line
      if stripped = "" then default else stripped

/-- `ClaudeCodeHost.request_question`: the emitted `question` message and the
free-text answer. -/
def request_question (session : Nat) (response_timeout_secs : Int)
    (w : WaitEnv) (question context : String) (options : List String) :
    List Msg × String :=
  ([.question ("session-" ++ toString session ++ "-question") question context options],
   read_response response_timeout_secs w "")

def approvalKeywords : List String :=
  ["y", "yes", "approve", "approved", "true", "1", "ok", "proceed"]

/-- `ClaudeCodeHost.request_approval`: the emitted `approval` message and the
decision. -/
def request_approval (session : Nat) (response_timeout_secs : Int)
    (w : WaitEnv) (description risk_level : String) : List Msg × Bool :=
  ([.approval ("session-" ++ toString session ++ "-approval") description risk_level],
   approvalKeywords.contains (pyLower (pyStrip (read_response response_timeout_secs w "no"))))

/-- `ClaudeCodeHost.parse_prompt_input`. -/
def parse_prompt_input (line : String) (parsed : Option JVal) :
    String × Option JVal :=
  match parsed with
  | some (.jobj l) =>
    (match jget l "prompt" with
     | some (.jstr s) => (s, pyGet l "context")
     | some v => (dumpsCompact v, pyGet l "context")
     | none => (line, none))
  | _ => (line, none)

/-- `ClaudeCodeHost.mock_output`. -/
def mock_output (prompt : String) : String :=
  let task := summarize prompt 100
  pyJoin "\n"
    [dumpsDefault (.jobj [("event", .jstr "analysis"),
       ("text", .jstr ("Planning implementation for task: " ++ task))]),
     dumpsDefault (.jobj [("event", .jstr "edit"),
       ("text", .jstr "Would update source files and add/adjust tests.")]),
     dumpsDefault (.jobj [("event", .jstr "final"),
       ("text", .jstr "Mock Claude Code run completed successfully.")])]

/-- `ClaudeCodeHost.build_command`. -/
def build_command (opts : HostOptions) (prompt : String) :
    List String × Option String :=
  let args := opts.claude_args
  if args.any (fun part => strContains part "\x7bprompt\x7d") then
    (opts.claude_command :: args.map (fun part => part.replace "\x7bprompt\x7d" prompt), none)
  else if opts.prompt_mode = "stdin" then
    (opts.claude_command :: args, some (prompt ++ "\n"))
  else if opts.prompt_mode = "json-stdin" then
    (opts.claude_command :: args,
     some (dumpsDefault (.jobj [("prompt", .jstr prompt)]) ++ "\n"))
  else
    (opts.claude_command :: (args ++ [prompt]), none)

/-- `subprocess.run(argv, timeout=allowed, ...)` as seen by `invoke_claude`:
the process either fails to start, times out against `allowed`, or finishes
with its streams and exit code. -/
def subprocess_run (allowed : Int) (p : ProcEnv) :
    Except Bool (String × String × Int) :=
  match p.behavior with
  | .notFound => .error true
  | .completes out err rc =>
    if p.finishesWithin allowed then .ok (out, err, rc) else .error false

/-- `ClaudeCodeHost.invoke_claude`: `Except.error` is the `RuntimeError`
message that the run loop's handler would report. -/
def invoke_claude (opts : HostOptions) (p : ProcEnv) (prompt : String) :
    Except String (String × String × List String) :=
  if opts.mock then
    .ok (mock_output prompt, "", [opts.claude_command, "<mock>"])
  else
    let argv := (build_command opts prompt).1
    match subprocess_run (max 1 opts.timeout_secs) p with
    | .error true => .error ("Claude command not found: " ++ opts.claude_command)
    | .error false =>
      .error ("Claude command timed out after " ++ toString opts.timeout_secs ++ "s")
    | .ok (stdout, stderr, rc) =>
      if rc ≠ 0 then
        let stderr_text := pyStrip stderr
        let stdout_text := pyStrip stdout
        let detail :=
          if stderr_text ≠ "" then stderr_text
          else if stdout_text ≠ "" then stdout_text
          else "exit code " ++ toString rc
        .error ("Claude command failed: " ++ detail)
      else .ok (stdout, stderr, argv)

/-! ### Text extraction from agent output -/

/-- Lookup in a table of per-member extraction results, mirroring
`value.get(key)` on the original object. -/
def lookupExt (exts : List (String × Option String)) (k : String) :
    Option (Option String) :=
  (exts.find? (fun p => p.1 == k)).map (fun p => p.2)

/-- The extraction cascade of `ClaudeCodeHost.extract_text`'s object branch:
for each key in order, `extracted = extract_text(value.get(key))` followed by
`if extracted: return extracted` (so `None` and `""` both fall through). -/
def chainLookup (exts : List (String × Option String)) : List String → Option String
  | [] => none
  | k :: rest =>
    match lookupExt exts k with
    | some (some t) => if t = "" then chainLookup exts rest else some t
    | _ => chainLookup exts rest

mutual

/-- `ClaudeCodeHost.extract_text`.  The Python object branch probes
`text`, `completion`, `delta`, `output` in a loop and then `message` and
`content` with the identical "return when truthy" pattern; here the
extractions of all member values are tabulated structurally and the
six-key cascade runs over that table (same results, since extraction is
pure). -/
def extract_text : JVal → Option String
  | .jstr s =>
    let t := pyStrip s
    if t = "" then none else some t
  | .jobj l =>
    chainLookup (extractMembers l)
      ["text", "completion", "delta", "output", "message", "content"]
  | .jarr xs =>
    let parts := extractParts xs
    if parts.isEmpty then none else some (pyJoin "\n" parts)
  | .jnull => none
  | .jbool _ => none
  | .jnum _ => none

/-- The list branch: keep each element's truthy extraction. -/
def extractParts : List JVal → List String
  | [] => []
  | x :: rest =>
    match extract_text x with
    | some t => if t = "" then extractParts rest else t :: extractParts rest
    | none => extractParts rest

/-- Extraction results of every member value of an object. -/
def extractMembers : List (String × JVal) → List (String × Option String)
  | [] => []
  | p :: rest => (p.1, extract_text p.2) :: extractMembers rest

end

/-! ### Output parser and prompt composer -/

/-- The synthesized event-marker name: `parsed.get("type") or
parsed.get("event") or parsed.get("kind") or "event"`, rendered by `str()`. -/
def markerName (l : List (String × JVal)) : String :=
  let pick := fun (o : Option JVal) =>
    match o with
    | some v => if pyTruthy v then some v else none
    | none => none
  match (pick (jget l "type")).orElse (fun _ =>
          (pick (jget l "event")).orElse (fun _ => pick (jget l "kind"))) with
  | some v => pyStr v
  | none => "event"

/-- `ClaudeCodeHost.parse_claude_output`:
`(result_text, partials, event_markers)`. -/
def parse_claude_output (output : String) : String × List String × List String :=
  let lines := ((splitlines output).map pyStrip).filter (fun l => l ≠ "")
  let step := fun (acc : List String × List String) (line : String) =>
    match try_parse_json line with
    | some (.jobj l) =>
      (match extract_text (.jobj l) with
       | some t =>
         if t ≠ "" then (acc.1 ++ [t], acc.2)
         else (acc.1, acc.2 ++ ["claude:" ++ markerName l])
       | none => (acc.1, acc.2 ++ ["claude:" ++ markerName l]))
    | _ => (acc.1 ++ [line], acc.2)
  let pe := lines.foldl step ([], [])
  let partials := compact_values pe.1
  let event_markers := compact_values pe.2
  let r1 := pyStrip (pyJoin "\n" partials)
  let r2 := if r1 = "" then pyStrip output else r1
  let result_text := if r2 = "" then "Claude Code returned no output." else r2
  (result_text, partials, event_markers)

/-- `ClaudeCodeHost.compose_prompt`. -/
def compose_prompt (opts : HostOptions) (history : List HEntry) (prompt : String)
    (context : Option JVal) (supervisor_note : String) : String :=
  let historySecs : List String :=
    if opts.carry_history && !history.isEmpty && opts.history_turns > 0 then
      "Recent middleware history:" ::
        ((pyTakeLast opts.history_turns.toNat history).enum.map (fun p =>
          toString (p.1 + 1) ++ ". Prompt: " ++ p.2.prompt ++
            "\n   Result: " ++ p.2.result))
    else []
  let sections := historySecs ++ ["Task:\n" ++ prompt]
    ++ (if pyStrip supervisor_note ≠ "" then
          ["Supervisor guidance:\n" ++ pyStrip supervisor_note]
        else [])
    ++ (match context with
        | none => []
        | some (.jstr s) => ["Concerto context:\n" ++ s]
        | some v => ["Concerto context:\n" ++ dumpsIndent2Sorted v])
  pyJoin "\n\n" sections

/-! ### Session engine -/

/-- The `partial` emission loop with its cap and skip-empty guards. -/
def emit_partials (session : Nat) (cap : Int) : List String → Int → List Msg
  | [], _ => []
  | c :: rest, sent =>
    if sent ≥ max 0 cap then []
    else if c = "" then emit_partials session cap rest sent
    else .chunk session c :: emit_partials session cap rest (sent + 1)

/-- Result of one session: emitted messages, the new history, and whether the
session reached the composition stage (`compose_prompt` was invoked). -/
structure SessionResult where
  msgs : List Msg
  history : List HEntry
  composed : Bool
deriving DecidableEq

/-- `ClaudeCodeHost.process_prompt`, with the run loop's `except` clause
folded in: an agent fault surfaces as the single
`error "session failed: ..."` message that handler emits. -/
def process_prompt (opts : HostOptions) (env : SessionEnv)
    (history : List HEntry) (session : Nat) (prompt : String)
    (context : Option JVal) : SessionResult :=
  let pre1 : List Msg :=
    if opts.mode = "stream" then
      [.progress session "received_prompt" "Prompt received by claude_code middleware"]
    else []
  let interactiveOn := opts.mode = "stream" && opts.interactive
  let q :=
    if interactiveOn then
      request_question session opts.response_timeout_secs env.questionWait
        "Any extra implementation guidance before I run Claude Code?"
        "Reply with one short instruction, or leave empty."
        ["Proceed as-is", "Prioritize safety", "Prioritize speed"]
    else ([], "")
  let supervisor_note := q.2
  let qmsgs := q.1 ++
    (if supervisor_note ≠ "" then
      [.progress session "supervisor_guidance" "Applied supervisor guidance"]
     else [])
  let risky := interactiveOn && looks_high_risk prompt
  let appr :=
    if risky then
      request_approval session opts.response_timeout_secs env.approvalWait
        ("High-risk task detected: " ++ summarize prompt 160) "high"
    else ([], true)
  let pre := pre1 ++ qmsgs ++ appr.1
  if risky && !appr.2 then
    ⟨pre ++ [.error (some session) "Task rejected by supervisor approval handler"],
     history, false⟩
  else
    let composed_prompt := compose_prompt opts history prompt context supervisor_note
    let invMsg : List Msg :=
      if opts.mode = "stream" then
        [.progress session "invoke_claude" "Invoking Claude Code CLI"]
      else []
    match invoke_claude opts env.proc composed_prompt with
    | .error e =>
      ⟨pre ++ invMsg ++ [.error (some session) ("session failed: " ++ e)],
       history, true⟩
    | .ok (raw, _stderrText, argv) =>
      let po := parse_claude_output raw
      let result_text := po.1
      let markerMsgs :=
        if opts.mode = "stream" then
          po.2.2.map (fun m => Msg.progress session "claude_event" m)
        else []
      let chunkMsgs :=
        if opts.mode = "stream" then
          emit_partials session opts.max_partials po.2.1 0
        else []
      ⟨pre ++ invMsg ++ markerMsgs ++ chunkMsgs ++
         [.result session result_text env.elapsedMs (argv.headD opts.claude_command)],
       record_history opts history prompt result_text, true⟩

/-- Is the parsed line a stray response-type message
(`parsed.get("type") == "response"`)? -/
def isResponseMsg (parsed : Option JVal) : Bool :=
  match parsed with
  | some (.jobj l) =>
    (match jget l "type" with
     | some (.jstr s) => s = "response"
     | _ => false)
  | _ => false

/-- One iteration of `ClaudeCodeHost.run` on a raw stdin line: the emitted
messages and the new host state. -/
def processLine (opts : HostOptions) (env : SessionEnv) (st : HostState)
    (raw : String) : List Msg × HostState :=
  let line := pyStrip raw
  if line = "" then ([], st)
  else
    let parsed := try_parse_json line
    if isResponseMsg parsed then ([], st)
    else
      let pc := parse_prompt_input line parsed
      if pc.1 = "" then ([.error none "received empty prompt"], st)
      else
        let session := st.session_counter + 1
        let r := process_prompt opts env st.history session pc.1 pc.2
        (r.msgs, ⟨session, r.history⟩)

/-! ### Observables -/

/-- Terminal protocol messages: `result` and `error`. -/
def isTerminal : Msg → Bool
  | .result _ _ _ _ => true
  | .error _ _ => true
  | _ => false

def countTerminal (msgs : List Msg) : Nat := (msgs.filter isTerminal).length

/-- The `text` fields of the emitted `result` messages, in order. -/
def resultTexts (msgs : List Msg) : List String :=
  msgs.filterMap (fun m =>
    match m with
    | .result _ t _ _ => some t
    | _ => none)

/-! ### Concrete fixtures -/

/-- The configuration produced by `parse_args` with all defaults plus
`--mock` (mock mode, oneshot). -/
def mockOpts : HostOptions :=
  { mode := "oneshot", interactive := false, mock := true,
    claude_command := "claude", claude_args := ["--print"],
    prompt_mode := "arg-last", timeout_secs := 600,
    response_timeout_secs := 30, history_turns := 3, max_partials := 32,
    carry_history := true }

/-- A quiet environment: mediator input at end-of-file, an agent process that
would succeed instantly, wall clock at zero elapsed. -/
def env0 : SessionEnv :=
  { questionWait := ⟨fun _ => true, none⟩,
    approvalWait := ⟨fun _ => true, none⟩,
    proc := ⟨fun _ => true, .completes "" "" 0⟩,
    elapsedMs := 0 }

/-! ### Counting lemmas for emitted messages -/

theorem countTerminal_append (a b : List Msg) :
    countTerminal (a ++ b) = countTerminal a + countTerminal b := by
  simp [countTerminal, List.filter_append]

theorem countTerminal_eq_zero_of :
    ∀ (l : List Msg), (∀ m ∈ l, isTerminal m = false) → countTerminal l = 0
  | [], _ => rfl
  | m :: rest, h => by
    have hm : isTerminal m = false := h m (by simp)
    have ih := countTerminal_eq_zero_of rest (fun x hx => h x (by simp [hx]))
    simp [countTerminal, List.filter_cons, hm] at ih ⊢
    exact ih

theorem countTerminal_progressMap (xs : List String) (s : Nat) (st : String) :
    countTerminal (xs.map (fun m => Msg.progress s st m)) = 0 := by
  apply countTerminal_eq_zero_of
  intro m hm
  simp only [List.mem_map] at hm
  obtain ⟨x, _, rfl⟩ := hm
  rfl

theorem countTerminal_emit_partials (s : Nat) (cap : Int) :
    ∀ (chunks : List String) (sent : Int),
      countTerminal (emit_partials s cap chunks sent) = 0
  | [], _ => rfl
  | c :: rest, sent => by
    rw [emit_partials]
    split
    · rfl
    · split
      · exact countTerminal_emit_partials s cap rest sent
      · have ih := countTerminal_emit_partials s cap rest (sent + 1)
        simp [countTerminal, List.filter_cons, isTerminal] at ih ⊢
        exact ih

def isResultM : Msg → Bool
  | .result _ _ _ _ => true
  | _ => false

theorem resultTexts_append (a b : List Msg) :
    resultTexts (a ++ b) = resultTexts a ++ resultTexts b := by
  simp [resultTexts]

theorem resultTexts_eq_nil_of :
    ∀ (l : List Msg), (∀ m ∈ l, isResultM m = false) → resultTexts l = []
  | [], _ => rfl
  | m :: rest, h => by
    have hm : isResultM m = false := h m (by simp)
    have ih := resultTexts_eq_nil_of rest (fun x hx => h x (by simp [hx]))
    cases m <;> simp_all [resultTexts, List.filterMap_cons, isResultM]

theorem resultTexts_progressMap (xs : List String) (s : Nat) (st : String) :
    resultTexts (xs.map (fun m => Msg.progress s st m)) = [] := by
  apply resultTexts_eq_nil_of
  intro m hm
  simp only [List.mem_map] at hm
  obtain ⟨x, _, rfl⟩ := hm
  rfl

theorem resultTexts_emit_partials (s : Nat) (cap : Int) :
    ∀ (chunks : List String) (sent : Int),
      resultTexts (emit_partials s cap chunks sent) = []
  | [], _ => rfl
  | c :: rest, sent => by
    rw [emit_partials]
    split
    · rfl
    · split
      · exact resultTexts_emit_partials s cap rest sent
      · have ih := resultTexts_emit_partials s cap rest (sent + 1)
        simp [resultTexts, List.filterMap_cons] at ih ⊢
        exact ih

theorem filter_isTerminal_progressMap (xs : List String) (s : Nat) (st : String) :
    List.filter isTerminal (xs.map (fun m => Msg.progress s st m)) = [] := by
  have h := countTerminal_progressMap xs s st
  unfold countTerminal at h
  exact List.eq_nil_of_length_eq_zero h

theorem filter_isTerminal_emit_partials (s : Nat) (cap : Int)
    (chunks : List String) (sent : Int) :
    List.filter isTerminal (emit_partials s cap chunks sent) = [] := by
  have h := countTerminal_emit_partials s cap chunks sent
  unfold countTerminal at h
  exact List.eq_nil_of_length_eq_zero h

theorem process_prompt_terminal (opts : HostOptions) (env : SessionEnv)
    (hist : List HEntry) (session : Nat) (prompt : String) (ctx : Option JVal) :
    countTerminal (process_prompt opts env hist session prompt ctx).msgs = 1 := by
  unfold process_prompt request_question request_approval
  dsimp only
  repeat' split
  all_goals
    simp [countTerminal_append, apply_ite countTerminal,
      filter_isTerminal_progressMap, filter_isTerminal_emit_partials,
      countTerminal, List.filter_append, List.filter_cons, List.filter,
      isTerminal]

theorem resultTexts_nil : resultTexts [] = [] := rfl

theorem resultTexts_one_progress (s : Nat) (st m : String) :
    resultTexts [Msg.progress s st m] = [] := rfl

theorem resultTexts_one_question (i q c : String) (os : List String) :
    resultTexts [Msg.question i q c os] = [] := rfl

theorem resultTexts_one_approval (i d r : String) :
    resultTexts [Msg.approval i d r] = [] := rfl

theorem resultTexts_one_error (s : Option Nat) (m : String) :
    resultTexts [Msg.error s m] = [] := rfl

theorem resultTexts_one_result (s : Nat) (t : String) (e : Int) (c : String) :
    resultTexts [Msg.result s t e c] = [t] := rfl

theorem resultTexts_cons_progress (s : Nat) (st m : String) (l : List Msg) :
    resultTexts (Msg.progress s st m :: l) = resultTexts l := rfl

theorem resultTexts_cons_question (i q c : String) (os : List String) (l : List Msg) :
    resultTexts (Msg.question i q c os :: l) = resultTexts l := rfl

theorem resultTexts_cons_approval (i d r : String) (l : List Msg) :
    resultTexts (Msg.approval i d r :: l) = resultTexts l := rfl

theorem resultTexts_cons_chunk (s : Nat) (c : String) (l : List Msg) :
    resultTexts (Msg.chunk s c :: l) = resultTexts l := rfl

theorem resultTexts_cons_error (s : Option Nat) (m : String) (l : List Msg) :
    resultTexts (Msg.error s m :: l) = resultTexts l := rfl

theorem resultTexts_cons_result (s : Nat) (t : String) (e : Int) (c : String)
    (l : List Msg) :
    resultTexts (Msg.result s t e c :: l) = t :: resultTexts l := rfl

/-- The supervisor note a session obtains before composing. -/
def noteOf (opts : HostOptions) (env : SessionEnv) : String :=
  if opts.mode = "stream" && opts.interactive then
    read_response opts.response_timeout_secs env.questionWait ""
  else ""

/-- Whether the session is cut short by a declined high-risk approval. -/
def rejectedBy (opts : HostOptions) (env : SessionEnv) (prompt : String) : Bool :=
  (opts.mode = "stream" && opts.interactive && looks_high_risk prompt) &&
  !(approvalKeywords.contains
      (pyLower (pyStrip (read_response opts.response_timeout_secs env.approvalWait "no"))))

/-- Characterization of a session's observable outcome: which `result` text
it emits, how the history store changes, and whether composition was
reached, as functions of the approval gate and the agent invocation. -/
theorem process_prompt_spec (opts : HostOptions) (env : SessionEnv)
    (hist : List HEntry) (session : Nat) (prompt : String) (ctx : Option JVal) :
    (resultTexts (process_prompt opts env hist session prompt ctx).msgs
       = (if rejectedBy opts env prompt then []
          else
            match invoke_claude opts env.proc
                (compose_prompt opts hist prompt ctx (noteOf opts env)) with
            | .error _ => []
            | .ok (raw, _, _) => [(parse_claude_output raw).1])) ∧
    ((process_prompt opts env hist session prompt ctx).history
       = (if rejectedBy opts env prompt then hist
          else
            match invoke_claude opts env.proc
                (compose_prompt opts hist prompt ctx (noteOf opts env)) with
            | .error _ => hist
            | .ok (raw, _, _) =>
              record_history opts hist prompt (parse_claude_output raw).1)) ∧
    ((process_prompt opts env hist session prompt ctx).composed
       = !(rejectedBy opts env prompt)) := by
  unfold process_prompt request_question request_approval noteOf rejectedBy
  dsimp only
  simp only [apply_ite (Prod.fst (α := List Msg) (β := String)),
    apply_ite (Prod.snd (α := List Msg) (β := String))]
  repeat' split
  all_goals
    simp_all [resultTexts_append, apply_ite resultTexts, resultTexts_nil,
      resultTexts_one_progress, resultTexts_one_question,
      resultTexts_one_approval, resultTexts_one_error, resultTexts_one_result,
      resultTexts_cons_progress, resultTexts_cons_question,
      resultTexts_cons_approval, resultTexts_cons_chunk,
      resultTexts_cons_error, resultTexts_cons_result,
      resultTexts_progressMap, resultTexts_emit_partials]

/-! ### String-length helpers -/

theorem strLength_append (a b : String) : (a ++ b).length = a.length + b.length := by
  cases a with
  | mk la =>
    cases b with
    | mk lb =>
      show (la ++ lb).length = la.length + lb.length
      exact List.length_append la lb

theorem summarize_length_le (text : String) (limit : Nat) (h3 : 3 ≤ limit) :
    (summarize text limit).length ≤ limit := by
  unfold summarize
  dsimp only
  split
  · assumption
  · next h =>
    rw [strLength_append]
    have h1 : (String.mk ((pyStrip (String.mk (text.data.map
        (fun c => if c = '\n' then ' ' else c)))).data.take (limit - 3))).length
        ≤ limit - 3 := List.length_take_le _ _
    have h2 : ("..." : String).length = 3 := rfl
    omega

/-- `record_history` with carrying enabled appends exactly the summarized
entry and keeps the most recent `max 1 (history_turns * 2)` entries. -/
theorem record_history_eq (opts : HostOptions) (hist : List HEntry)
    (p r : String) (hc : opts.carry_history = true) :
    record_history opts hist p r
      = pyTakeLast (max 1 (opts.history_turns * 2)).toNat
          (hist ++ [⟨summarize p 300, summarize r 300⟩]) := by
  unfold record_history
  simp only [hc, Bool.not_true, Bool.false_eq_true, if_false]
  generalize hcap : max 1 (opts.history_turns * 2) = cap
  have hcap1 : (1 : Int) ≤ cap := hcap ▸ le_max_left 1 _
  split
  · rfl
  · next hle =>
    unfold pyTakeLast
    have hlen : (hist ++ [(⟨summarize p 300, summarize r 300⟩ : HEntry)]).length
        ≤ cap.toNat := by
      rw [Int.not_lt] at hle
      omega
    rw [Nat.sub_eq_zero_of_le hlen, List.drop_zero]

/-! ### Claim C1 -/

/-- C1 (amended): every non-blank input line that does not declare itself a
response-type message yields exactly one terminal message (`result` or
`error`); a non-blank response-declared line is consumed without emitting any
message at all. -/
theorem session_terminal_message (opts : HostOptions) (env : SessionEnv)
    (st : HostState) (raw : String) (h : pyStrip raw ≠ "") :
    countTerminal (processLine opts env st raw).1
      = (if isResponseMsg (try_parse_json (pyStrip raw)) then 0 else 1) := by
  unfold processLine
  dsimp only
  rw [if_neg h]
  by_cases h2 : isResponseMsg (try_parse_json (pyStrip raw)) = true
  · rw [if_pos h2, if_pos h2]
    rfl
  · rw [if_neg h2, if_neg h2]
    split
    · rfl
    · exact process_prompt_terminal _ _ _ _ _ _

/-- Witness for C1 at the concrete non-blank, non-response line `"hello"`. -/
theorem session_terminal_message_witness :
    pyStrip "hello" ≠ "" ∧
    countTerminal (processLine mockOpts env0 initState "hello").1
      = (if isResponseMsg (try_parse_json (pyStrip "hello")) then 0 else 1) :=
  ⟨by decide, session_terminal_message mockOpts env0 initState "hello" (by decide)⟩

/-- C1 counterexample to the claim as stated: the non-blank line
`{"type":"response"}` is read by the main loop but yields zero terminal
messages, not exactly one. -/
theorem response_line_no_terminal :
    pyStrip "\x7b\"type\":\"response\"\x7d" ≠ "" ∧
    countTerminal
      (processLine mockOpts env0 initState "\x7b\"type\":\"response\"\x7d").1 = 0 :=
  ⟨by decide, by decide⟩

/-! ### Claim C2 -/

def mockScenarioLine : String := "\x7b\"prompt\":\"add a health check endpoint\"\x7d"

/-- What the code actually emits: the mock summarizes the *composed* prompt
(`"Task:\nadd a health check endpoint"`, newline replaced by a space). -/
def mockScenarioText : String :=
  "Planning implementation for task: Task: add a health check endpoint\nWould update source files and add/adjust tests.\nMock Claude Code run completed successfully."

/-- The text the claim expects. -/
def mockScenarioClaimedText : String :=
  "Planning implementation for task: add a health check endpoint\nWould update source files and add/adjust tests.\nMock Claude Code run completed successfully."

set_option maxHeartbeats 4000000 in
/-- C2 (amended): in mock oneshot mode the input line
`{"prompt":"add a health check endpoint"}` yields exactly one `result`
message whose text is the three mock event texts joined by newline, where
the analysis text embeds the summarized *composed* prompt
`"Task: add a health check endpoint"`. -/
theorem mock_oneshot_scenario :
    (processLine mockOpts env0 initState mockScenarioLine).1
      = [Msg.result 1 mockScenarioText 0 "claude"] := by
  decide

set_option maxHeartbeats 4000000 in
/-- C2 counterexample to the claim as stated: the single emitted `result`
text differs from the claimed string (it carries the composed prompt's
`"Task: "` header inside the analysis line). -/
theorem mock_oneshot_scenario_claim_false :
    (processLine mockOpts env0 initState mockScenarioLine).1
      = [Msg.result 1 mockScenarioText 0 "claude"] ∧
    mockScenarioText ≠ mockScenarioClaimedText := by
  exact ⟨by decide, by decide⟩

/-! ### Claim C3 -/

/-- C3 (amended): every session that reaches the result-emission stage
(agent invocation and parsing succeeded, so a `result` message with text `t`
is emitted) reached composition and, with history carrying enabled, appends
exactly one history entry — the ≤300-character ellipsis-truncated summaries
of the original prompt and of `t` — then trims to capacity.  A session that
reaches composition but whose invocation faults appends nothing (see the
counterexample). -/
theorem history_append_on_result (opts : HostOptions) (env : SessionEnv)
    (hist : List HEntry) (session : Nat) (prompt : String) (ctx : Option JVal)
    (t : String)
    (ht : resultTexts (process_prompt opts env hist session prompt ctx).msgs = [t]) :
    (process_prompt opts env hist session prompt ctx).composed = true ∧
    (process_prompt opts env hist session prompt ctx).history
      = record_history opts hist prompt t ∧
    (opts.carry_history = true →
      (process_prompt opts env hist session prompt ctx).history
        = pyTakeLast (max 1 (opts.history_turns * 2)).toNat
            (hist ++ [⟨summarize prompt 300, summarize t 300⟩]) ∧
      (summarize prompt 300).length ≤ 300 ∧
      (summarize t 300).length ≤ 300) := by
  obtain ⟨h1, h2, h3⟩ := process_prompt_spec opts env hist session prompt ctx
  rw [h1] at ht
  by_cases hr : rejectedBy opts env prompt = true
  · rw [if_pos hr] at ht
    simp at ht
  · rw [if_neg hr] at ht
    rw [if_neg hr] at h2
    cases hinv : invoke_claude opts env.proc
        (compose_prompt opts hist prompt ctx (noteOf opts env)) with
    | error e =>
      rw [hinv] at ht
      simp at ht
    | ok res =>
      obtain ⟨raw, se, argv⟩ := res
      rw [hinv] at ht h2
      simp only at ht h2
      have heq : (parse_claude_output raw).1 = t := by simpa using ht
      refine ⟨?_, ?_, ?_⟩
      · rw [h3]
        simp [hr]
      · rw [h2, heq]
      · intro hc
        refine ⟨?_, summarize_length_le prompt 300 (by omega),
                summarize_length_le t 300 (by omega)⟩
        rw [h2, heq, record_history_eq opts hist prompt t hc]

def mockHiText : String :=
  "Planning implementation for task: Task: hi\nWould update source files and add/adjust tests.\nMock Claude Code run completed successfully."

set_option maxHeartbeats 4000000 in
/-- Witness for C3: a concrete mock session that emits a `result`. -/
theorem history_append_on_result_witness :
    resultTexts (process_prompt mockOpts env0 [] 1 "hi" none).msgs = [mockHiText] ∧
    ((process_prompt mockOpts env0 [] 1 "hi" none).composed = true ∧
     (process_prompt mockOpts env0 [] 1 "hi" none).history
       = record_history mockOpts [] "hi" mockHiText ∧
     (mockOpts.carry_history = true →
       (process_prompt mockOpts env0 [] 1 "hi" none).history
         = pyTakeLast (max 1 (mockOpts.history_turns * 2)).toNat
             ([] ++ [⟨summarize "hi" 300, summarize mockHiText 300⟩]) ∧
       (summarize "hi" 300).length ≤ 300 ∧
       (summarize mockHiText 300).length ≤ 300)) :=
  ⟨by decide,
   history_append_on_result mockOpts env0 [] 1 "hi" none mockHiText (by decide)⟩

/-- The default configuration with mock mode off. -/
def failOpts : HostOptions := { mockOpts with mock := false }

/-- An environment whose agent command cannot be resolved. -/
def envNotFound : SessionEnv := { env0 with proc := ⟨fun _ => true, .notFound⟩ }

/-- C3 counterexample to the claim as stated: this session invokes
`compose_prompt` (composition stage reached) and carrying is enabled, yet
the agent fault means zero history entries are appended. -/
theorem composition_without_history_entry :
    (process_prompt failOpts envNotFound [] 1 "hello" none).composed = true ∧
    failOpts.carry_history = true ∧
    (process_prompt failOpts envNotFound [] 1 "hello" none).history = [] :=
  ⟨by decide, by decide, by decide⟩

/-! ### Claim C4 -/

/-- C4 (amended): the interactive-response wait blocks without any deadline
when the configured response timeout is zero or negative, and enforces the
configured value as a hard deadline when positive; the agent-invocation wait
instead always enforces the hard deadline `max 1 timeout_secs`, so a zero or
negative configured timeout there means a clamped one-unit deadline, not an
unbounded wait. -/
theorem timeout_semantics :
    (∀ (t : Int) (w : WaitEnv), t ≤ 0 → read_line_with_timeout (max 0 t) w = w.line) ∧
    (∀ (t : Int) (w : WaitEnv), 0 < t →
      read_line_with_timeout (max 0 t) w = (if w.ready t then w.line else none)) ∧
    (∀ (opts : HostOptions) (p : ProcEnv) (prompt out err : String) (rc : Int),
      opts.mock = false → p.behavior = .completes out err rc →
      p.finishesWithin (max 1 opts.timeout_secs) = false →
      invoke_claude opts p prompt
        = .error ("Claude command timed out after " ++ toString opts.timeout_secs ++ "s")) ∧
    (∀ (opts : HostOptions) (p : ProcEnv) (prompt out err : String),
      opts.mock = false → p.behavior = .completes out err 0 →
      p.finishesWithin (max 1 opts.timeout_secs) = true →
      invoke_claude opts p prompt = .ok (out, err, (build_command opts prompt).1)) := by
  refine ⟨?_, ?_, ?_, ?_⟩
  · intro t w ht
    have hm : max 0 t = 0 := max_eq_left ht
    rw [read_line_with_timeout, hm, if_pos le_rfl]
  · intro t w ht
    have hm : max 0 t = t := max_eq_right (le_of_lt ht)
    rw [read_line_with_timeout, hm, if_neg (by omega)]
  · intro opts p prompt out err rc hm hb hf
    simp [invoke_claude, subprocess_run, hm, hb, hf]
  · intro opts p prompt out err hm hb hf
    simp [invoke_claude, subprocess_run, hm, hb, hf]

/-- The default non-mock configuration with a configured timeout of zero. -/
def optsT0 : HostOptions := { mockOpts with mock := false, timeout_secs := 0 }

/-- An agent process that needs two time units to finish. -/
def procSlow : ProcEnv := ⟨fun allowed => decide (2 ≤ allowed), .completes "done" "" 0⟩

/-- Witness for C4: a negative response timeout falls through to the
blocking read, and a too-slow agent process is reported as timed out against
the clamped deadline. -/
theorem timeout_semantics_witness :
    ((-5 : Int) ≤ 0 ∧
      read_line_with_timeout (max 0 (-5)) ⟨fun _ => false, some "line"⟩ = some "line") ∧
    (optsT0.mock = false ∧ procSlow.behavior = .completes "done" "" 0 ∧
      procSlow.finishesWithin (max 1 optsT0.timeout_secs) = false ∧
      invoke_claude optsT0 procSlow "p"
        = .error ("Claude command timed out after " ++ toString optsT0.timeout_secs ++ "s")) :=
  ⟨⟨by decide, (timeout_semantics.1 (-5) ⟨fun _ => false, some "line"⟩ (by decide)).trans rfl⟩,
   ⟨rfl, rfl, by decide,
    timeout_semantics.2.2.1 optsT0 procSlow "p" "done" "" 0 rfl rfl (by decide)⟩⟩

/-- C4 counterexample to the claim as stated: with a configured invocation
timeout of zero the code enforces the clamped deadline `max 1 0 = 1` —
an agent that would finish after two units is reported as timed out, where
"block without any deadline" would have produced its result. -/
theorem invoke_deadline_at_zero_timeout :
    optsT0.timeout_secs = 0 ∧
    procSlow.finishesWithin 2 = true ∧
    invoke_claude optsT0 procSlow "p" = .error "Claude command timed out after 0s" :=
  ⟨rfl, by decide, rfl⟩

/-! ### Claim C5 -/

theorem record_history_no_carry (opts : HostOptions) (hist : List HEntry)
    (p r : String) (hc : opts.carry_history = false) :
    record_history opts hist p r = hist := by
  unfold record_history
  simp [hc]

/-- With history carrying disabled a session leaves the store untouched. -/
theorem process_prompt_history_no_carry (opts : HostOptions) (env : SessionEnv)
    (hist : List HEntry) (session : Nat) (prompt : String) (ctx : Option JVal)
    (hc : opts.carry_history = false) :
    (process_prompt opts env hist session prompt ctx).history = hist := by
  rw [(process_prompt_spec opts env hist session prompt ctx).2.1]
  split
  · rfl
  · split
    · rfl
    · exact record_history_no_carry opts hist prompt _ hc

/-- C5 (amended): mock output is deterministic given identical input, where
the input of a session is the prompt line together with the carried host
state: (a) over any starting state, the `result` texts of a mock run do not
depend on the wall clock; (b) with history carrying disabled, running the
identical prompt line twice in one process yields identical `result` texts
across the two sessions (elapsed time and session id excluded).  With
history carrying enabled — the default — the second sequential session folds
the first session's history into the composed prompt that the mock
summarizes, so its text differs (see the counterexample). -/
theorem mock_run_determinism :
    (∀ (opts : HostOptions) (raw : String) (env : SessionEnv) (st : HostState)
        (e1 e2 : Int), opts.mock = true →
      resultTexts (processLine opts { env with elapsedMs := e1 } st raw).1
        = resultTexts (processLine opts { env with elapsedMs := e2 } st raw).1) ∧
    (∀ (opts : HostOptions) (raw : String) (env : SessionEnv) (st : HostState)
        (e1 e2 : Int), opts.mock = true → opts.carry_history = false →
      resultTexts (processLine opts { env with elapsedMs := e2 }
          (processLine opts { env with elapsedMs := e1 } st raw).2 raw).1
        = resultTexts (processLine opts { env with elapsedMs := e1 } st raw).1) := by
  constructor
  · intro opts raw env st e1 e2 _hm
    unfold processLine
    dsimp only
    split_ifs
    · rfl
    · rfl
    · rfl
    · rw [(process_prompt_spec _ _ _ _ _ _).1, (process_prompt_spec _ _ _ _ _ _).1]
      rfl
  · intro opts raw env st e1 e2 _hm hc
    unfold processLine
    dsimp only
    split_ifs
    · rfl
    · rfl
    · rfl
    · rw [process_prompt_history_no_carry _ _ _ _ _ _ hc]
      rw [(process_prompt_spec _ _ _ _ _ _).1, (process_prompt_spec _ _ _ _ _ _).1]
      rfl

/-- The default mock configuration with history carrying disabled. -/
def noCarryOpts : HostOptions := { mockOpts with carry_history := false }

set_option maxHeartbeats 8000000 in
/-- Witness for C5: concrete clock-independence, and a concrete identical
double run without history carrying. -/
theorem mock_run_determinism_witness :
    (mockOpts.mock = true ∧
      resultTexts (processLine mockOpts { env0 with elapsedMs := 5 } initState "hello").1
        = resultTexts (processLine mockOpts { env0 with elapsedMs := 9 } initState "hello").1) ∧
    (noCarryOpts.mock = true ∧ noCarryOpts.carry_history = false ∧
      resultTexts (processLine noCarryOpts { env0 with elapsedMs := 9 }
          (processLine noCarryOpts { env0 with elapsedMs := 5 } initState "hello").2 "hello").1
        = resultTexts (processLine noCarryOpts { env0 with elapsedMs := 5 } initState "hello").1) :=
  ⟨⟨rfl, mock_run_determinism.1 mockOpts "hello" env0 initState 5 9 rfl⟩,
   ⟨rfl, rfl, mock_run_determinism.2 noCarryOpts "hello" env0 initState 5 9 rfl rfl⟩⟩

set_option maxHeartbeats 16000000 in
/-- C5 counterexample to the claim as stated: under the default
configuration (history carrying enabled) running mock mode twice with the
identical prompt line in one process yields different `result` texts — the
second session's composed prompt embeds the first session's history, which
the mock summarizes into its analysis line.  Elapsed time and session id
play no role (both runs share the clock and `resultTexts` drops both). -/
theorem mock_rerun_differs :
    mockOpts.mock = true ∧ mockOpts.carry_history = true ∧
    resultTexts (processLine mockOpts env0
        (processLine mockOpts env0 initState "hi").2 "hi").1
      ≠ resultTexts (processLine mockOpts env0 initState "hi").1 :=
  ⟨rfl, rfl, by decide⟩

/-! ### Claim C6 -/

theorem record_history_length_le (opts : HostOptions) (h : List HEntry)
    (p r : String)
    (hh : (h.length : Int) ≤ max 1 (opts.history_turns * 2)) :
    ((record_history opts h p r).length : Int) ≤ max 1 (opts.history_turns * 2) := by
  unfold record_history
  dsimp only
  generalize hcap : max 1 (opts.history_turns * 2) = cap at hh ⊢
  have hcap1 : (1 : Int) ≤ cap := hcap ▸ le_max_left 1 _
  split
  · exact hh
  · split
    · next hgt =>
      simp only [pyTakeLast, List.length_drop, List.length_append,
        List.length_cons, List.length_nil]
      omega
    · next hle =>
      simp only [Int.not_lt, List.length_append, List.length_cons,
        List.length_nil] at hle ⊢
      omega

theorem foldl_record_history_le (opts : HostOptions) :
    ∀ (ps : List (String × String)) (h0 : List HEntry),
      (h0.length : Int) ≤ max 1 (opts.history_turns * 2) →
      (((ps.foldl (fun h pr => record_history opts h pr.1 pr.2) h0).length : Int)
        ≤ max 1 (opts.history_turns * 2))
  | [], _, hh => hh
  | pr :: rest, h0, hh =>
    foldl_record_history_le opts rest _
      (record_history_length_le opts h0 pr.1 pr.2 hh)

/-- C6: starting from the empty store, any sequence of history-store appends
keeps the entry count within `max 1 (history_turns * 2)`; in particular with
`history_turns = 3` the count never exceeds 6, however many sessions have
completed. -/
theorem history_capacity :
    (∀ (opts : HostOptions) (ps : List (String × String)),
      (((ps.foldl (fun h pr => record_history opts h pr.1 pr.2) []).length : Int)
        ≤ max 1 (opts.history_turns * 2))) ∧
    (∀ (opts : HostOptions) (ps : List (String × String)),
      opts.history_turns = 3 →
      (ps.foldl (fun h pr => record_history opts h pr.1 pr.2) []).length ≤ 6) := by
  constructor
  · intro opts ps
    apply foldl_record_history_le
    simpa using le_trans zero_le_one (le_max_left (1 : Int) (opts.history_turns * 2))
  · intro opts ps h3
    have h := foldl_record_history_le opts ps []
      (by simpa using le_trans zero_le_one (le_max_left (1 : Int) (opts.history_turns * 2)))
    rw [h3] at h
    norm_num at h
    exact_mod_cast h

/-- Witness for C6 at a concrete two-append run with `history_turns = 3`. -/
theorem history_capacity_witness :
    mockOpts.history_turns = 3 ∧
    ([("a", "b"), ("c", "d")].foldl
        (fun h pr => record_history mockOpts h pr.1 pr.2) []).length ≤ 6 :=
  ⟨rfl, history_capacity.2 mockOpts [("a", "b"), ("c", "d")] rfl⟩

/-! ### Claim C7 -/

/-- The response text a supervisor line carries, following the spec's
reading rule: field `value` if present, else `response`; a string value is
stripped, a non-string value rendered as compact JSON; a non-structural line
is its own stripped text when non-empty.  `none` when the line provides no
usable value (the code then falls back to the wait's default). -/
def responseValue (line : String) : Option String :=
  match try_parse_json (pyStrip line) with
  | some (.jobj l) =>
    (match (pyGet l "value").orElse (fun _ => pyGet l "response") with
     | none => none
     | some (.jstr s) => some (pyStrip s)
     | some v => some (dumpsCompact v))
  | _ =>
    let stripped := pyStrip line
    if stripped = "" then none else some stripped

/-- `read_response` returns exactly the extracted response value when one
is usable, and the supplied default otherwise. -/
theorem read_response_responseValue (t : Int) (w : WaitEnv) (default : String) :
    read_response t w default
      = (match read_line_with_timeout (max 0 t) w with
         | none => default
         | some line => (responseValue line).getD default) := by
  unfold read_response responseValue
  cases hr : read_line_with_timeout (max 0 t) w with
  | none => rfl
  | some line =>
    dsimp only
    cases hp : try_parse_json (pyStrip line) with
    | none =>
      by_cases hs : pyStrip line = "" <;> simp [hs]
    | some u =>
      cases u with
      | jobj l =>
        cases hv : (pyGet l "value").orElse (fun _ => pyGet l "response") with
        | none => simp [hv]
        | some vv => cases vv <;> simp [hv]
      | jnull => by_cases hs : pyStrip line = "" <;> simp [hs]
      | jbool b => by_cases hs : pyStrip line = "" <;> simp [hs]
      | jnum s => by_cases hs : pyStrip line = "" <;> simp [hs]
      | jstr s => by_cases hs : pyStrip line = "" <;> simp [hs]
      | jarr xs => by_cases hs : pyStrip line = "" <;> simp [hs]

/-- C7: `request_approval` answers `true` iff a response line arrives within
the wait and the text it carries, lowercased and trimmed, is one of the
eight approval keywords; timeout, a malformed line, and a structural
response with neither `value` nor `response` all fall back to the default
`"no"` and hence answer `false`. -/
theorem request_approval_iff (session : Nat) (t : Int) (w : WaitEnv)
    (d r : String) :
    (request_approval session t w d r).2 = true ↔
    (∃ line, read_line_with_timeout (max 0 t) w = some line ∧
      ∃ v, responseValue line = some v ∧
        approvalKeywords.contains (pyLower (pyStrip v)) = true) := by
  unfold request_approval
  dsimp only
  rw [read_response_responseValue]
  cases hr : read_line_with_timeout (max 0 t) w with
  | none =>
    constructor
    · intro h
      exact absurd h (by decide)
    · rintro ⟨l, hl, _⟩
      cases hl
  | some line =>
    cases hv : responseValue line with
    | none =>
      dsimp only
      rw [hv, Option.getD_none]
      constructor
      · intro h
        exact absurd h (by decide)
      · rintro ⟨l2, hl2, v, hvv, _⟩
        injection hl2 with hl2
        subst hl2
        rw [hv] at hvv
        cases hvv
    | some v =>
      dsimp only
      rw [hv, Option.getD_some]
      constructor
      · intro h
        exact ⟨line, rfl, v, hv, h⟩
      · rintro ⟨l2, hl2, v2, hvv, hc⟩
        injection hl2 with hl2
        subst hl2
        rw [hv] at hvv
        injection hvv with hvv
        subst hvv
        exact hc

/-! ### Claim C8 -/

theorem compactAux_chain :
    ∀ (values acc : List String), acc.Chain' (· ≠ ·) →
      (compactAux acc values).Chain' (· ≠ ·)
  | [], _, h => h
  | v :: rest, acc, h => by
    rw [compactAux]
    split
    · exact compactAux_chain rest acc h
    · split
      · exact compactAux_chain rest acc h
      · next hne =>
        apply compactAux_chain rest
        rw [List.chain'_append]
        refine ⟨h, List.chain'_singleton v, ?_⟩
        intro x hx y hy
        simp only [List.head?_cons, Option.mem_def, Option.some.injEq] at hy
        subst hy
        intro hxy
        subst hxy
        exact hne (by simpa using hx)

/-- Three identical structured event lines in the raw agent output. -/
def c8Output : String :=
  "\x7b\"event\": \"tick\"\x7d\n\x7b\"event\": \"tick\"\x7d\n\x7b\"event\": \"tick\"\x7d"

/-- C8: for every raw agent output, `partials` and `event_markers` carry no
two consecutive identical entries; in particular three consecutive identical
structured event lines collapse to exactly one `claude:tick` marker. -/
theorem parse_output_compaction :
    (∀ output : String,
      ((parse_claude_output output).2.1).Chain' (· ≠ ·) ∧
      ((parse_claude_output output).2.2).Chain' (· ≠ ·)) ∧
    (parse_claude_output c8Output).2.2 = ["claude:tick"] := by
  refine ⟨fun output => ⟨?_, ?_⟩, ?_⟩
  · exact compactAux_chain _ _ List.chain'_nil
  · exact compactAux_chain _ _ List.chain'_nil
  · decide

/-! ### Claim C9 -/

theorem length_pos_of_ne_empty {s : String} (h : s ≠ "") : 0 < s.length := by
  cases s with
  | mk l =>
    cases l with
    | nil => exact absurd rfl h
    | cons c cs =>
      show 0 < (c :: cs).length
      simp

theorem pyJoin_ne_empty (sep : String) :
    ∀ (parts : List String), parts ≠ [] → (∀ p ∈ parts, p ≠ "") →
      pyJoin sep parts ≠ ""
  | [], h, _ => absurd rfl h
  | [x], _, hall => by
    rw [pyJoin]
    exact hall x (by simp)
  | x :: y :: rest, _, hall => by
    rw [pyJoin]
    intro hcon
    have hx : 0 < x.length := length_pos_of_ne_empty (hall x (by simp))
    have hlen : 0 < (x ++ sep ++ pyJoin sep (y :: rest)).length := by
      rw [strLength_append, strLength_append]
      omega
    rw [hcon] at hlen
    exact absurd hlen (by decide)

theorem extractParts_all_ne :
    ∀ (xs : List JVal) (p : String), p ∈ extractParts xs → p ≠ ""
  | [], p, hp => by rw [extractParts] at hp; cases hp
  | x :: rest, p, hp => by
    rw [extractParts] at hp
    cases he : extract_text x with
    | none =>
      rw [he] at hp
      dsimp only at hp
      exact extractParts_all_ne rest p hp
    | some t =>
      rw [he] at hp
      dsimp only at hp
      by_cases ht : t = ""
      · rw [if_pos ht] at hp
        exact extractParts_all_ne rest p hp
      · rw [if_neg ht] at hp
        rcases List.mem_cons.mp hp with h | h
        · subst h; exact ht
        · exact extractParts_all_ne rest p h

theorem chainLookup_ne_empty :
    ∀ (exts : List (String × Option String)) (keys : List String),
      chainLookup exts keys ≠ some ""
  | _, [] => by rw [chainLookup]; simp
  | exts, k :: rest => by
    rw [chainLookup]
    split
    · next t _ =>
      split
      · exact chainLookup_ne_empty exts rest
      · next ht => simp [ht]
    · exact chainLookup_ne_empty exts rest

/-- `extract_text` never returns empty text (Python truthiness guards every
return). -/
theorem extract_text_ne_empty : ∀ (v : JVal), extract_text v ≠ some ""
  | .jnull => by rw [extract_text]; simp
  | .jbool _ => by rw [extract_text]; simp
  | .jnum _ => by rw [extract_text]; simp
  | .jstr s => by
    rw [extract_text]
    split
    · simp
    · next h => simp [h]
  | .jobj _ => chainLookup_ne_empty _ _
  | .jarr xs => by
    rw [extract_text]
    split
    · simp
    · next h =>
      intro hcon
      injection hcon with hcon
      refine pyJoin_ne_empty "\n" (extractParts xs) ?_ ?_ hcon
      · intro hnil
        rw [hnil] at h
        exact h rfl
      · exact fun p hp => extractParts_all_ne xs p hp

theorem lookupExt_extractMembers (l : List (String × JVal)) (k : String) :
    lookupExt (extractMembers l) k = (jget l k).map extract_text := by
  induction l with
  | nil => rfl
  | cons p rest ih =>
    by_cases hk : (p.1 == k) = true
    · simp [extractMembers, lookupExt, jget, List.find?_cons, hk]
    · simp only [extractMembers, lookupExt, jget, List.find?_cons, hk] at ih ⊢
      simpa [hk] using ih

theorem chainLookup_cons_eq (l : List (String × JVal)) (k : String)
    (rest : List String) :
    chainLookup (extractMembers l) (k :: rest)
      = ((jget l k).bind extract_text).orElse
          (fun _ => chainLookup (extractMembers l) rest) := by
  rw [chainLookup, lookupExt_extractMembers]
  cases hg : jget l k with
  | none => simp [Option.orElse]
  | some w =>
    cases he : extract_text w with
    | none => simp [Option.orElse, he]
    | some t =>
      have ht : t ≠ "" := fun hh => extract_text_ne_empty w (hh ▸ he)
      simp [Option.orElse, he, ht]

theorem orElse_none_right (o : Option α) : (o.orElse (fun _ => none)) = o := by
  cases o <;> rfl

theorem extractParts_eq_filterMap :
    ∀ xs : List JVal, extractParts xs = xs.filterMap extract_text
  | [] => rfl
  | x :: rest => by
    rw [extractParts, List.filterMap_cons]
    cases he : extract_text x with
    | none => simp [he, extractParts_eq_filterMap rest]
    | some t =>
      have ht : t ≠ "" := fun hh => extract_text_ne_empty x (hh ▸ he)
      simp [he, ht, extractParts_eq_filterMap rest]

/-- C9: on an object, `extract_text` probes `text`, `completion`, `delta`,
`output` in that fixed order, then recurses into `message`, then `content`,
the first extraction that yields text winning, else none; on a list it
extracts every element recursively and joins the non-empty results (which
are exactly the successful extractions, extraction never yielding empty
text) with newline, yielding none when no element yields text. -/
theorem extract_text_spec :
    (∀ l : List (String × JVal),
      extract_text (.jobj l)
        = ((jget l "text").bind extract_text).orElse (fun _ =>
          ((jget l "completion").bind extract_text).orElse (fun _ =>
          ((jget l "delta").bind extract_text).orElse (fun _ =>
          ((jget l "output").bind extract_text).orElse (fun _ =>
          ((jget l "message").bind extract_text).orElse (fun _ =>
          (jget l "content").bind extract_text)))))) ∧
    (∀ xs : List JVal,
      extract_text (.jarr xs)
        = (if xs.filterMap extract_text = [] then none
           else some (pyJoin "\n" (xs.filterMap extract_text)))) := by
  constructor
  · intro l
    rw [extract_text]
    rw [chainLookup_cons_eq, chainLookup_cons_eq, chainLookup_cons_eq,
        chainLookup_cons_eq, chainLookup_cons_eq, chainLookup_cons_eq]
    simp only [chainLookup, orElse_none_right]
  · intro xs
    rw [extract_text]
    rw [extractParts_eq_filterMap]
    by_cases h : xs.filterMap extract_text = []
    · simp [h]
    · simp [h, List.isEmpty_iff]

/-! ### Claim C10 -/

/-- C10 (amended): every non-blank input line that does not declare itself a
response-type message and whose derived prompt text is the empty string
yields exactly one `error` message carrying no session field, and leaves the
host state — in particular the session counter — unchanged, so session ids
stay consecutive across such lines. -/
theorem empty_prompt_error (opts : HostOptions) (env : SessionEnv)
    (st : HostState) (raw : String)
    (h1 : pyStrip raw ≠ "")
    (h2 : isResponseMsg (try_parse_json (pyStrip raw)) = false)
    (h3 : (parse_prompt_input (pyStrip raw) (try_parse_json (pyStrip raw))).1 = "") :
    (processLine opts env st raw).1 = [.error none "received empty prompt"] ∧
    (processLine opts env st raw).2 = st := by
  unfold processLine
  rw [if_neg h1, if_neg (by simp [h2]), if_pos h3]
  exact ⟨rfl, rfl⟩

/-- Witness for C10 at the concrete line `{"prompt":""}`. -/
theorem empty_prompt_error_witness :
    pyStrip "\x7b\"prompt\":\"\"\x7d" ≠ "" ∧
    isResponseMsg (try_parse_json (pyStrip "\x7b\"prompt\":\"\"\x7d")) = false ∧
    (parse_prompt_input (pyStrip "\x7b\"prompt\":\"\"\x7d")
        (try_parse_json (pyStrip "\x7b\"prompt\":\"\"\x7d"))).1 = "" ∧
    ((processLine mockOpts env0 initState "\x7b\"prompt\":\"\"\x7d").1
        = [.error none "received empty prompt"] ∧
      (processLine mockOpts env0 initState "\x7b\"prompt\":\"\"\x7d").2 = initState) :=
  ⟨by decide, by decide, by decide,
   empty_prompt_error mockOpts env0 initState "\x7b\"prompt\":\"\"\x7d"
     (by decide) (by decide) (by decide)⟩

def responseEmptyPromptLine : String :=
  "\x7b\"type\":\"response\",\"prompt\":\"\"\x7d"

/-- C10 counterexample to the claim as stated: a non-blank line whose
derived prompt text is empty but which also declares itself a response-type
message is discarded outright — no `error` message is emitted for it. -/
theorem empty_prompt_response_line_ignored :
    pyStrip responseEmptyPromptLine ≠ "" ∧
    (parse_prompt_input (pyStrip responseEmptyPromptLine)
        (try_parse_json (pyStrip responseEmptyPromptLine))).1 = "" ∧
    (processLine mockOpts env0 initState responseEmptyPromptLine).1 = [] :=
  ⟨by decide, by decide, by decide⟩

end ClaudeHost
